import Mathlib

/-!
Verification of the nsi-auth dynamic allowlist subsystem (src/nsi_auth.py).

The embedding models:
  - `validate` (the /validate route): given the stored allowlist state and the
    optional identity header value, return the response body and HTTP status.
  - `load_allowed_client_dn`: given the stored state and the outcome of
    reading the backing file (`none` models any read failure, which the
    source catches with a blanket `except Exception`), return the new state.
    The line parsing `[line.strip() for line in f if line.strip()]` is
    embedded as `parseLines`, with Python `str.strip` embedded as `strip`
    over the character list (whitespace modelled by `Char.isWhitespace`).
  - `watch_step`: one tick of the polling loop in `watch_file`: stat the
    file, compare the nanosecond modification time with the watermark.
    The source catches only `FileNotFoundError`; any other stat exception
    propagates out of the loop and terminates the watch thread, which the
    model records as the `crashed` outcome.

The `version` field of `State` models the object identity of the stored
list: each replacement installs a fresh list object, so the version marker
changes exactly when a replacement happens.
-/

namespace NsiAuth

/-- Whitespace predicate used by `strip`. -/
def isSpace (c : Char) : Bool := c.isWhitespace

/-- Remove leading and trailing whitespace from a character list: drop the
whitespace run at the front, then (via reverse) the whitespace run at the
back. Embeds Python `str.strip()` on the underlying characters. -/
def stripChars (cs : List Char) : List Char :=
  ((cs.dropWhile isSpace).reverse.dropWhile isSpace).reverse

/-- Python `s.strip()`. -/
def strip (s : String) : String := String.mk (stripChars s.data)

/-- Application state: the allowlist (`state.allowed_client_subject_dn` in
the source) plus a version marker modelling the object identity of the
stored list (a replacement installs a fresh object, bumping the marker). -/
structure State where
  allowed_client_subject_dn : List String
  version : Nat
  deriving DecidableEq, Repr

/-- The /validate route: `header` is the value of the configured identity
header (`none` when the header is absent). The source treats an absent or
empty value as falsy and answers 403; otherwise it answers 403 unless the
value is an exact member of the stored list, in which case 200. -/
def validate (st : State) (header : Option String) : String × Nat :=
  match header with
  | none => ("Forbidden", 403)
  | some dn =>
    if dn = "" then ("Forbidden", 403)
    else if dn ∈ st.allowed_client_subject_dn then ("OK", 200)
    else ("Forbidden", 403)

/-- The list comprehension in `load_allowed_client_dn`:
`[line.strip() for line in f if line.strip()]` — keep the lines that are
non-empty after stripping, stripped; duplicates are NOT removed. -/
def parseLines (lines : List String) : List String :=
  (lines.filter (fun line => strip line != "")).map strip

/-- `load_allowed_client_dn`: `fileContent` is `none` when reading the file
raised (the source catches every `Exception`, logs, and leaves the state
untouched). On a successful read the new list replaces the stored one only
when the two lists compare unequal as lists. -/
def load_allowed_client_dn (st : State) (fileContent : Option (List String)) : State :=
  match fileContent with
  | none => st
  | some lines =>
    if st.allowed_client_subject_dn ≠ parseLines lines then
      { allowed_client_subject_dn := parseLines lines, version := st.version + 1 }
    else st

/-- Outcome of `filepath.stat().st_mtime_ns` on one polling tick. The
source catches only `FileNotFoundError`; `otherError` stands for any other
exception a stat call can raise (for example permission denied). -/
inductive StatResult where
  | ok (mtime_ns : Nat)
  | fileNotFound
  | otherError
  deriving DecidableEq, Repr

/-- Outcome of one iteration of the watch loop: either the loop proceeds to
the next tick with an updated watermark and a flag recording whether the
reload callback ran, or an uncaught exception escaped the loop body and the
watch thread died. -/
inductive WatchOutcome where
  | next (last_modified : Nat) (reloaded : Bool)
  | crashed
  deriving DecidableEq, Repr

/-- One tick of the polling loop body in `watch_file.watch`. -/
def watch_step (last_modified : Nat) (stat : StatResult) : WatchOutcome :=
  match stat with
  | .ok modified =>
    if last_modified < modified then .next modified true
    else .next last_modified false
  | .fileNotFound => .next last_modified false
  | .otherError => .crashed

/-! Helper lemmas about `strip`. -/

theorem head_dropWhile_neg {p : Char → Bool} (l : List Char) (a : Char) (t : List Char)
    (h : l.dropWhile p = a :: t) : p a = false := by
  induction l with
  | nil => simp [List.dropWhile] at h
  | cons b l ih =>
    by_cases hb : p b
    · rw [List.dropWhile_cons_of_pos hb] at h
      exact ih h
    · rw [List.dropWhile_cons_of_neg hb] at h
      injection h with h1 h2
      subst h1
      simpa using hb

theorem dropWhile_dropWhile {p : Char → Bool} (l : List Char) :
    (l.dropWhile p).dropWhile p = l.dropWhile p := by
  cases hd : l.dropWhile p with
  | nil => rfl
  | cons a t => exact List.dropWhile_cons_of_neg (by simp [head_dropWhile_neg l a t hd])

theorem stripChars_head_neg (cs : List Char) (a : Char) (t : List Char)
    (h : stripChars cs = a :: t) : isSpace a = false := by
  have hsplit :
      (cs.dropWhile isSpace).reverse.takeWhile isSpace
        ++ (cs.dropWhile isSpace).reverse.dropWhile isSpace
        = (cs.dropWhile isSpace).reverse :=
    List.takeWhile_append_dropWhile isSpace (cs.dropWhile isSpace).reverse
  have h2 : cs.dropWhile isSpace
      = stripChars cs ++ ((cs.dropWhile isSpace).reverse.takeWhile isSpace).reverse := by
    conv_lhs => rw [← List.reverse_reverse (cs.dropWhile isSpace), ← hsplit]
    rw [List.reverse_append]
    rfl
  rw [h] at h2
  exact head_dropWhile_neg cs a _ (by simpa using h2)

theorem dropWhile_stripChars (cs : List Char) :
    (stripChars cs).dropWhile isSpace = stripChars cs := by
  cases hd : stripChars cs with
  | nil => rfl
  | cons a t => exact List.dropWhile_cons_of_neg (by simp [stripChars_head_neg cs a t hd])

theorem stripChars_idem (cs : List Char) : stripChars (stripChars cs) = stripChars cs := by
  show (((stripChars cs).dropWhile isSpace).reverse.dropWhile isSpace).reverse = stripChars cs
  rw [dropWhile_stripChars]
  show ((((cs.dropWhile isSpace).reverse.dropWhile isSpace).reverse).reverse.dropWhile
      isSpace).reverse = stripChars cs
  rw [List.reverse_reverse, dropWhile_dropWhile]
  rfl

theorem strip_idem (s : String) : strip (strip s) = strip s :=
  congrArg String.mk (stripChars_idem s.data)

theorem mem_parseLines_strip {s : String} {lines : List String}
    (h : s ∈ parseLines lines) : strip s = s := by
  obtain ⟨line, hl, rfl⟩ := List.mem_map.mp h
  exact strip_idem line

theorem mem_parseLines_ne_empty {s : String} {lines : List String}
    (h : s ∈ parseLines lines) : s ≠ "" := by
  obtain ⟨line, hl, rfl⟩ := List.mem_map.mp h
  have hp := List.of_mem_filter hl
  simpa using hp

/-! Claim theorems. -/

/-- C1: for every stored state and every non-empty identity presented in
the header, validate answers body OK with status 200 iff the identity is an
exact member of the stored list, and body Forbidden with status 403 iff it
is not. -/
theorem validate_allow_iff (st : State) (i : String) (h : i ≠ "") :
    (validate st (some i) = ("OK", 200) ↔ i ∈ st.allowed_client_subject_dn) ∧
    (validate st (some i) = ("Forbidden", 403) ↔ i ∉ st.allowed_client_subject_dn) := by
  by_cases hm : i ∈ st.allowed_client_subject_dn <;> simp [validate, h, hm]

/-- Witness for C1 at concrete inputs: CN=alice is allowed when listed and
denied when only CN=bob is listed. -/
theorem validate_allow_iff_witness :
    validate ⟨["CN=alice"], 0⟩ (some "CN=alice") = ("OK", 200) ∧
    validate ⟨["CN=bob"], 0⟩ (some "CN=alice") = ("Forbidden", 403) :=
  ⟨(validate_allow_iff ⟨["CN=alice"], 0⟩ "CN=alice" (by decide)).1.mpr (by decide),
   (validate_allow_iff ⟨["CN=bob"], 0⟩ "CN=alice" (by decide)).2.mpr (by decide)⟩

/-- C2: a request whose identity header is absent, or present but empty, is
answered Forbidden with status 403 regardless of the stored list. -/
theorem validate_missing_identity (st : State) :
    validate st none = ("Forbidden", 403) ∧ validate st (some "") = ("Forbidden", 403) := by
  refine ⟨rfl, ?_⟩
  simp [validate]

/-- C3 counterexample: loading the lines a, space-b-space, empty, c, a
yields the list [a, b, c, a], which is not duplicate-free — the code does
not collapse duplicate values, so the loaded collection is not
unique-by-value as the claim states. -/
theorem parseLines_not_nodup :
    parseLines ["a", " b ", "", "c", "a"] = ["a", "b", "c", "a"] ∧
      ¬ (parseLines ["a", " b ", "", "c", "a"]).Nodup := by
  decide

/-- C3 amended: loading that file trims each line, discards lines empty
after trimming, and keeps duplicates, producing [a, b, c, a]; the member
set is exactly the set containing a, b and c, but duplicate values are
retained, not collapsed. -/
theorem parseLines_roundtrip :
    parseLines ["a", " b ", "", "c", "a"] = ["a", "b", "c", "a"] ∧
      ∀ s : String, s ∈ parseLines ["a", " b ", "", "c", "a"] ↔ s ∈ ["a", "b", "c"] := by
  have h : parseLines ["a", " b ", "", "c", "a"] = ["a", "b", "c", "a"] := by decide
  refine ⟨h, fun s => ?_⟩
  rw [h]
  simp only [List.mem_cons, List.not_mem_nil, or_false]
  tauto

/-- C4 counterexample: loading file content [a, b] into an empty store and
then file content [b, a] performs a replacement both times (version 0 to 1
to 2), although the member sets of the two loaded lists are equal — the
code compares lists, not member sets, so equality of member sets does not
prevent replacement. -/
theorem replace_on_equal_sets :
    ((load_allowed_client_dn ⟨[], 0⟩ (some ["a", "b"])).version = 1 ∧
      (load_allowed_client_dn (load_allowed_client_dn ⟨[], 0⟩ (some ["a", "b"]))
        (some ["b", "a"])).version = 2) ∧
    (parseLines ["a", "b"]).all (fun s => (parseLines ["b", "a"]).contains s) = true ∧
    (parseLines ["b", "a"]).all (fun s => (parseLines ["a", "b"]).contains s) = true := by
  decide

/-- C4 amended: the loader replaces the stored list exactly when the newly
parsed list differs from the stored one as a list (order- and
multiplicity-sensitive comparison); equal lists leave the state untouched,
and member-set equality alone does not prevent replacement. -/
theorem replace_iff_list_differs (st : State) (lines : List String) :
    load_allowed_client_dn st (some lines) = st ↔
      parseLines lines = st.allowed_client_subject_dn := by
  by_cases h : st.allowed_client_subject_dn = parseLines lines
  · simp [load_allowed_client_dn, h]
  · simp only [load_allowed_client_dn, ne_eq, h, not_false_eq_true, if_true]
    constructor
    · intro he
      have hv := congrArg State.version he
      simp at hv
    · intro he
      exact absurd he.symm h

/-- C5: reloading twice with unchanged file content leaves the state after
the second reload equal to the state after the first, version marker
included — the second reload performs no replacement, so the stored object
is the same one (reference identity modelled by the version marker). -/
theorem reload_idempotent (st : State) (lines : List String) :
    load_allowed_client_dn (load_allowed_client_dn st (some lines)) (some lines) =
      load_allowed_client_dn st (some lines) := by
  by_cases h : st.allowed_client_subject_dn = parseLines lines
  · simp [load_allowed_client_dn, h]
  · simp [load_allowed_client_dn, h]

/-- C6: a failed load attempt (any read failure, modelled by `none`) leaves
the state untouched, and an identity that validate allowed before the
failed load is still allowed after it. -/
theorem load_failure_preserves_state (st : State) (i : String)
    (h : validate st (some i) = ("OK", 200)) :
    load_allowed_client_dn st none = st ∧
      validate (load_allowed_client_dn st none) (some i) = ("OK", 200) :=
  ⟨rfl, h⟩

/-- Witness for C6: with CN=alice stored, a failed load keeps the state and
CN=alice is still allowed. -/
theorem load_failure_preserves_state_witness :
    load_allowed_client_dn ⟨["CN=alice"], 1⟩ none = ⟨["CN=alice"], 1⟩ ∧
      validate (load_allowed_client_dn ⟨["CN=alice"], 1⟩ none) (some "CN=alice") = ("OK", 200) :=
  load_failure_preserves_state ⟨["CN=alice"], 1⟩ "CN=alice" (by decide)

/-- C7: on a tick whose stat succeeds with modification time m, the reload
callback runs and the watermark advances to m exactly when m is strictly
greater than the watermark; when m is less than or equal to the watermark,
no reload runs and the watermark is unchanged. -/
theorem watch_step_tick (last m : Nat) :
    (watch_step last (StatResult.ok m) = WatchOutcome.next m true ↔ last < m) ∧
    (watch_step last (StatResult.ok m) = WatchOutcome.next last false ↔ m ≤ last) := by
  by_cases h : last < m
  · simp [watch_step, h]
  · simp [watch_step, h]
    omega

/-- C8 counterexample: a stat failure other than file-not-found (for
example permission denied) is not caught by the except clause, so the
exception escapes the loop body and the watch thread dies — the loop does
not continue to the next tick as the claim states for every stat failure. -/
theorem watch_step_other_error :
    watch_step 0 StatResult.otherError = WatchOutcome.crashed ∧
      watch_step 0 StatResult.otherError ≠ WatchOutcome.next 0 false := by
  decide

/-- C8 amended: a stat failure raising file-not-found is logged, leaves
the watermark unchanged, triggers no reload, and the loop continues; any
other stat failure propagates and terminates the watch loop. -/
theorem watch_step_stat_failure (last : Nat) :
    watch_step last StatResult.fileNotFound = WatchOutcome.next last false ∧
      watch_step last StatResult.otherError = WatchOutcome.crashed :=
  ⟨rfl, rfl⟩

/-- C10: the loader trims each line but validate compares the header value
verbatim: an identity that differs from its trimmed form, with the trimmed
form present in the loaded list, is denied, while the trimmed form itself
is allowed. -/
theorem trimmed_only_match (lines : List String) (i : String) (v : Nat)
    (hne : i ≠ strip i) (hmem : strip i ∈ parseLines lines) :
    validate ⟨parseLines lines, v⟩ (some i) = ("Forbidden", 403) ∧
      validate ⟨parseLines lines, v⟩ (some (strip i)) = ("OK", 200) := by
  have hi_ne : i ≠ "" := by
    intro h0
    apply hne
    rw [h0]
    rfl
  have hnotmem : i ∉ parseLines lines := by
    intro hin
    exact hne (mem_parseLines_strip hin).symm
  have hs_ne : strip i ≠ "" := mem_parseLines_ne_empty hmem
  constructor
  · simp [validate, hi_ne, hnotmem]
  · simp [validate, hs_ne, hmem]

/-- Witness for C10: with the file line space-CN=alice-space, the header
value with a leading space is denied while the trimmed value is allowed. -/
theorem trimmed_only_match_witness :
    validate ⟨parseLines [" CN=alice "], 0⟩ (some " CN=alice") = ("Forbidden", 403) ∧
      validate ⟨parseLines [" CN=alice "], 0⟩ (some (strip " CN=alice")) = ("OK", 200) :=
  trimmed_only_match [" CN=alice "] " CN=alice" 0 (by decide) (by decide)

end NsiAuth
